import Mathlib

/-!
Shallow embedding of the neuroevolution Flappy-Bird simulation core
(src/NE/Entities/Bird.py, src/NE/Entities/Pipe.py, src/NE/Engine/Engine.py).

Conventions of the embedding:
* Python floats that only ever hold exact decimal values produced by the
  arithmetic of this program (positions, fitness, the 1.5 coefficient) are
  modelled as rationals; integer-valued attributes are `Int`/`Nat`.
* Mutable objects become immutable records, mutation becomes functional update.
* External collaborators (pygame surfaces, NEAT networks) enter only through
  the data the core reads from them: image dimensions become numeric
  parameters, a network becomes an opaque value of a type parameter `Net`
  together with an activation function `act : Net → List ℚ → ℚ`, the
  pixel-mask collision test becomes a Boolean parameter `collide`.
* Python `for i, x in enumerate(lst)` loops that pop from `lst` while
  iterating are modelled index-faithfully: the iterator index increases by
  one after every iteration regardless of whether `pop(i)` shrank the list,
  which is exactly CPython's list-iterator behaviour.  Each loop is written
  with an explicit fuel argument equal to the length of the list when the
  loop starts; since the index grows by one per iteration and the list never
  grows during a scan, that fuel is never exhausted before the loop's
  `index < length` guard fails, so the fuel-indexed function computes
  precisely the Python loop.
-/

namespace NE

/-- Constants from src/NE/Entities/Bird.py. -/
def BIRD_JUMP_VELOCITY : ℚ := -10

/-- Terminal (maximum) per-tick fall distance, src/NE/Entities/Bird.py. -/
def BIRD_TERMINAL_VELOCITY : ℚ := 16

/-- Rotation constant, src/NE/Entities/Bird.py. -/
def BIRD_MAX_ROTATION : ℤ := 25

/-- Lower screen bound used by `hits_border`, src/NE/Entities/Bird.py. -/
def BIRD_OFFSET : ℚ := 680

/-- Gap between the two mini pipes, src/NE/Entities/Pipe.py. -/
def PIPE_GAP : ℤ := 300

/-- Horizontal scroll speed of a pipe, src/NE/Entities/Pipe.py. -/
def PIPE_VELOCITY : ℤ := 5

/-- Spawn x coordinate of every pipe, src/NE/Engine/Engine.py. -/
def PIPE_POSITION_X : ℤ := 650

/-- Spawn coordinates of every bird, src/NE/Engine/Engine.py. -/
def BIRD_POSITION_X : ℤ := 220

/-- Spawn y coordinate of every bird, src/NE/Engine/Engine.py. -/
def BIRD_POSITION_Y : ℚ := 350

/-- Fitness bonus paid to every genome when a pipe is first passed. -/
def FITNESS_INCREASE_PASS : ℚ := 5

/-- Fitness bonus paid to a genome for surviving one frame. -/
def FITNESS_INCREASE_LIVE : ℚ := 1/10

/-- Threshold on the network output above which the bird jumps. -/
def DECISION_BORDER : ℚ := 1/2

/-- Fitness penalty applied to a genome whose bird collides with a pipe. -/
def FITNESS_DECREASE : ℚ := 1

/-- State of a `Bird` (src/NE/Entities/Bird.py).  `position` is split into
`posX`/`posY`; `posX` is an integer because the engine only ever assigns the
constant 220 to it.  The render-only attributes `animation_frame`, `images`
and `image` are not part of the simulation state: they are read and written
only by `draw`, except for `image.get_height()` in `hits_border`, which is
passed to the embedding of `hits_border` as an explicit sprite-height
parameter. -/
structure Bird where
  posX : ℤ
  posY : ℚ
  rotation : ℤ
  velocity : ℚ
  jumpPos : ℚ
  tickFrame : ℕ
deriving DecidableEq

instance : Inhabited Bird := ⟨⟨0, 0, 0, 0, 0, 0⟩⟩

/-- `Bird.__init__` with a given spawn position: rotation and velocity are 0,
the jump reference is the spawn y, the tick counter is 0. -/
def mkBird (posX : ℤ) (posY : ℚ) : Bird :=
  { posX := posX, posY := posY, rotation := 0, velocity := 0
    jumpPos := posY, tickFrame := 0 }

/-- The uncapped displacement formula of `Bird.move`:
`distance = velocity * tick + 1.5 * tick**2`. -/
def rawDistance (v : ℚ) (t : ℕ) : ℚ := v * t + 3/2 * (t : ℚ)^2

/-- The displacement actually applied by `Bird.move`: the raw formula capped
at `BIRD_TERMINAL_VELOCITY` when it reaches that value. -/
def appliedDistance (v : ℚ) (t : ℕ) : ℚ :=
  if BIRD_TERMINAL_VELOCITY ≤ rawDistance v t then BIRD_TERMINAL_VELOCITY
  else rawDistance v t

/-- `Bird.move` (src/NE/Entities/Bird.py lines 81-111): increment the tick
counter, add the capped displacement to the y position, set the rotation to
`BIRD_MAX_ROTATION` when the displacement is negative or the new position is
above the jump reference, else to its negation. -/
def Bird.move (b : Bird) : Bird :=
  let t := b.tickFrame + 1
  let d := appliedDistance b.velocity t
  let y := b.posY + d
  { b with
    tickFrame := t
    posY := y
    rotation :=
      if d < 0 ∨ y < b.jumpPos then BIRD_MAX_ROTATION else -BIRD_MAX_ROTATION }

/-- `Bird.jump` (src/NE/Entities/Bird.py lines 136-147): set the velocity to
the jump constant, record the current y position as the jump reference and
reset the tick counter. -/
def Bird.jump (b : Bird) : Bird :=
  { b with velocity := BIRD_JUMP_VELOCITY, jumpPos := b.posY, tickFrame := 0 }

/-- `Bird.hits_border` (src/NE/Entities/Bird.py lines 149-153), with the
height of the bird's current sprite passed in as `spriteH`:
`position[1] + image.get_height() >= BIRD_OFFSET or position[1] < 0`. -/
def Bird.hits_border (spriteH : ℚ) (b : Bird) : Bool :=
  decide (BIRD_OFFSET ≤ b.posY + spriteH ∨ b.posY < 0)

/-- State of a `Pipe` (src/NE/Entities/Pipe.py).  `mini_pipes[0]` (the bottom
segment) and `mini_pipes[1]` (the top segment) are the same surface, one the
vertical flip of the other, so they share one width and one height; the
embedding keeps those dimensions as the fields `width` and `topHeight`.
`posY0`/`posY1` are `position_y[0]`/`position_y[1]`, `height` is the gap
height drawn by `randrange` at construction. -/
structure Pipe where
  posX : ℤ
  isPassed : Bool
  width : ℤ
  topHeight : ℤ
  height : ℤ
  posY0 : ℤ
  posY1 : ℤ
deriving DecidableEq

instance : Inhabited Pipe := ⟨⟨0, false, 0, 0, 0, 0, 0⟩⟩

/-- `Pipe.__init__` plus `Pipe.__init_pipe` (src/NE/Entities/Pipe.py lines
71-78 and 162-168) with the random gap height `h` passed in:
`position_y = [height + PIPE_GAP, height - mini_pipes[1].get_height()]`. -/
def mkPipe (posX w th h : ℤ) : Pipe :=
  { posX := posX, isPassed := false, width := w, topHeight := th
    height := h, posY0 := h + PIPE_GAP, posY1 := h - th }

/-- `Pipe.move`: decrease the x position by the scroll speed. -/
def Pipe.move (p : Pipe) : Pipe := { p with posX := p.posX - PIPE_VELOCITY }

/-- `Pipe.is_window_passed` (src/NE/Entities/Pipe.py lines 143-154):
`position_x + mini_pipes[0].get_width() < 0`. -/
def Pipe.is_window_passed (p : Pipe) : Bool := decide (p.posX + p.width < 0)

/-- `Pipe.is_bird_passed` (src/NE/Entities/Pipe.py lines 156-160): latch
`is_passed` to true once `position_x < bird.position[0]`, and return the
(updated) latch.  The first component is the updated pipe, the second the
returned Boolean. -/
def Pipe.is_bird_passed (p : Pipe) (b : Bird) : Pipe × Bool :=
  let p' := if p.posX < b.posX then { p with isPassed := true } else p
  (p', p'.isPassed)

/-! ## Claim C9: `hits_border` is the stated pure predicate -/

/-- Claim C9: `isOutOfBounds()`/`hits_border()` returns true exactly when the
bird's y position plus its sprite height reaches the lower screen bound 680
(the reading the spec itself fixes in scenario A: "becomes true once
y+spriteHeight ≥ 680") or its y position is negative.  In the embedding
`hits_border` is a function of the bird state alone, mirroring that the
Python method only reads `self.position` and `self.image` and writes
nothing. -/
theorem C9_hits_border_iff (spriteH : ℚ) (b : Bird) :
    b.hits_border spriteH = true ↔ (680 ≤ b.posY + spriteH ∨ b.posY < 0) := by
  simp [Bird.hits_border, BIRD_OFFSET]

/-! ## Claim C10: `jump` is idempotent -/

/-- Claim C10: calling `jump()` twice in immediate succession leaves the bird
in exactly the state one call produces: `jump` writes constants to
`velocity` and `tick_frame` and copies `position[1]` (which it does not
change) into `jump_position`, so a second call rewrites the same values. -/
theorem C10_jump_idempotent (b : Bird) : b.jump.jump = b.jump := rfl

/-! ## Claim C6: per-tick displacements after repeated `move` -/

/-- The displacement the k-th call of `move` (0-based, after the state `b`)
applies to the bird's y position, observed as the difference of consecutive
iterates. -/
def dispAt (b : Bird) (k : ℕ) : ℚ :=
  ((Bird.move)^[k + 1] b).posY - ((Bird.move)^[k] b).posY

theorem move_velocity (b : Bird) : (b.move).velocity = b.velocity := rfl

theorem move_tickFrame (b : Bird) : (b.move).tickFrame = b.tickFrame + 1 := rfl

theorem iterate_move_velocity (b : Bird) (k : ℕ) :
    ((Bird.move)^[k] b).velocity = b.velocity := by
  induction k with
  | zero => rfl
  | succ n ih => rw [Function.iterate_succ_apply', move_velocity, ih]

theorem iterate_move_tickFrame (b : Bird) (k : ℕ) :
    ((Bird.move)^[k] b).tickFrame = b.tickFrame + k := by
  induction k with
  | zero => rfl
  | succ n ih => rw [Function.iterate_succ_apply', move_tickFrame, ih]; ring

theorem move_posY (b : Bird) :
    (b.move).posY = b.posY + appliedDistance b.velocity (b.tickFrame + 1) := rfl

/-- The k-th per-tick displacement is the capped distance formula evaluated
at tick `b.tickFrame + k + 1`. -/
theorem dispAt_eq (b : Bird) (k : ℕ) :
    dispAt b k = appliedDistance b.velocity (b.tickFrame + k + 1) := by
  unfold dispAt
  rw [Function.iterate_succ_apply', move_posY, iterate_move_velocity,
    iterate_move_tickFrame]
  ring

theorem appliedDistance_eq_min (v : ℚ) (t : ℕ) :
    appliedDistance v t = min (rawDistance v t) 16 := by
  unfold appliedDistance BIRD_TERMINAL_VELOCITY
  rcases le_or_lt (16 : ℚ) (rawDistance v t) with h | h
  · rw [if_pos h, min_eq_right h]
  · rw [if_neg (not_le.mpr h), min_eq_left h.le]

theorem rawDistance_succ_sub (v : ℚ) (t : ℕ) :
    rawDistance v (t + 1) - rawDistance v t = v + 3 * t + 3/2 := by
  unfold rawDistance
  push_cast
  ring

/-- Counterexample to claim C6 as stated: for the reachable state of a bird
that has just jumped (velocity −10, tick counter 0 — the state `jump`
produces at the spawn position), the per-tick displacements of the next two
`move` calls are −8.5 and then −14, so the displacement sequence is NOT
monotonically non-decreasing. -/
theorem C6_counterexample :
    dispAt ((mkBird 220 350).jump) 1 < dispAt ((mkBird 220 350).jump) 0 := by
  rw [dispAt_eq, dispAt_eq]
  norm_num [mkBird, Bird.jump, appliedDistance, rawDistance,
    BIRD_JUMP_VELOCITY, BIRD_TERMINAL_VELOCITY]

/-- Claim C6, amended.  After `move` is called repeatedly with no intervening
impulse: (a) the applied per-tick displacement equals the terminal value 16
whenever the raw formula `velocity*t + 1.5*t^2` reaches it; (b) consecutive
displacements are non-decreasing from any tick `t` at which
`velocity + 3*t + 3/2 ≥ 0`; (c) in particular, for a bird with velocity 0 the
whole displacement sequence is non-decreasing.  (The unamended claim asserted
(b) for every reachable velocity; immediately after an impulse the velocity
is −10 and the first displacements strictly decrease, see the
counterexample.) -/
theorem C6_displacement_cap_and_monotone (b : Bird) (k : ℕ) :
    (16 ≤ rawDistance b.velocity (b.tickFrame + k + 1) → dispAt b k = 16) ∧
    (0 ≤ b.velocity + 3 * ((b.tickFrame : ℚ) + k + 1) + 3/2 →
      dispAt b k ≤ dispAt b (k + 1)) ∧
    (b.velocity = 0 → dispAt b k ≤ dispAt b (k + 1)) := by
  refine ⟨?_, ?_, ?_⟩
  · intro h
    rw [dispAt_eq, appliedDistance_eq_min, min_eq_right h]
  · intro h
    rw [dispAt_eq, dispAt_eq, appliedDistance_eq_min, appliedDistance_eq_min]
    have step : rawDistance b.velocity (b.tickFrame + k + 1) ≤
        rawDistance b.velocity (b.tickFrame + k + 1 + 1) := by
      have hs := rawDistance_succ_sub b.velocity (b.tickFrame + k + 1)
      push_cast at hs ⊢
      nlinarith [hs]
    have : b.tickFrame + (k + 1) + 1 = b.tickFrame + k + 1 + 1 := by ring
    rw [this]
    exact min_le_min step le_rfl
  · intro h0
    rw [dispAt_eq, dispAt_eq, appliedDistance_eq_min, appliedDistance_eq_min]
    have step : rawDistance b.velocity (b.tickFrame + k + 1) ≤
        rawDistance b.velocity (b.tickFrame + k + 1 + 1) := by
      have hs := rawDistance_succ_sub b.velocity (b.tickFrame + k + 1)
      rw [h0] at hs ⊢
      push_cast at hs ⊢
      nlinarith [hs]
    have : b.tickFrame + (k + 1) + 1 = b.tickFrame + k + 1 + 1 := by ring
    rw [this]
    exact min_le_min step le_rfl

/-- Witness for C6: a freshly spawned bird (velocity 0, tick 0) reaches the
raw distance 24 ≥ 16 at its fourth tick, and the theorem yields the capped
displacement 16 there together with monotonicity at that tick. -/
theorem C6_witness :
    (16 ≤ rawDistance (mkBird 220 350).velocity
        ((mkBird 220 350).tickFrame + 3 + 1) ∧
      dispAt (mkBird 220 350) 3 = 16) ∧
    ((mkBird 220 350).velocity = 0 ∧
      dispAt (mkBird 220 350) 3 ≤ dispAt (mkBird 220 350) 4) := by
  have h16 : 16 ≤ rawDistance (mkBird 220 350).velocity
      ((mkBird 220 350).tickFrame + 3 + 1) := by
    norm_num [mkBird, rawDistance]
  have h0 : (mkBird 220 350).velocity = 0 := rfl
  exact ⟨⟨h16, (C6_displacement_cap_and_monotone (mkBird 220 350) 3).1 h16⟩,
    ⟨h0, (C6_displacement_cap_and_monotone (mkBird 220 350) 3).2.2 h0⟩⟩

/-! ## Claim C8: when `is_window_passed` first becomes true -/

theorem iterate_pipe_move_posX (p : Pipe) (n : ℕ) :
    ((Pipe.move)^[n] p).posX = p.posX - 5 * n := by
  induction n with
  | zero => simp
  | succ m ih =>
      rw [Function.iterate_succ_apply']
      show ((Pipe.move)^[m] p).posX - PIPE_VELOCITY = _
      rw [ih]
      unfold PIPE_VELOCITY
      push_cast
      ring

theorem iterate_pipe_move_width (p : Pipe) (n : ℕ) :
    ((Pipe.move)^[n] p).width = p.width := by
  induction n with
  | zero => rfl
  | succ m ih => rw [Function.iterate_succ_apply']; exact ih

/-- Counterexample to claim C8 as stated: for a pipe spawned at x = 650 whose
segment width is 100, the claim predicts `is_window_passed` first becomes
true after exactly (650 + 100)/5 = 150 `move` calls; but after 150 moves the
x position is −100 and −100 + 100 = 0 is not negative, so `is_window_passed`
is still false — it first becomes true one call later, after 151 moves. -/
theorem C8_counterexample :
    ((Pipe.move)^[150] (mkPipe 650 100 640 200)).is_window_passed = false ∧
    ((Pipe.move)^[151] (mkPipe 650 100 640 200)).is_window_passed = true := by
  constructor <;>
  · rw [Pipe.is_window_passed, iterate_pipe_move_posX, iterate_pipe_move_width]
    norm_num [mkPipe]

/-- Claim C8, amended.  For a pipe spawned at x = 650 scrolled at 5 per tick,
`is_window_passed` after n `move` calls is true exactly when 5n > 650 +
segmentWidth — i.e. it first becomes true after ⌊(650 + segmentWidth)/5⌋ + 1
calls, one more than the claim's (650 + segmentWidth)/5 when 5 divides
650 + segmentWidth (the test is strict: it is true exactly when the current
x position plus the segment width is negative, which is the claim's second,
correct clause). -/
theorem C8_window_passed_iff (w th h : ℤ) (n : ℕ) :
    (((Pipe.move)^[n] (mkPipe 650 w th h)).is_window_passed = true ↔
      650 + w < 5 * n) ∧
    (∀ p : Pipe, p.is_window_passed = true ↔ p.posX + p.width < 0) := by
  constructor
  · rw [Pipe.is_window_passed, iterate_pipe_move_posX, iterate_pipe_move_width]
    show decide ((mkPipe 650 w th h).posX - 5 * (n : ℤ) +
      (mkPipe 650 w th h).width < 0) = true ↔ _
    show decide ((650 : ℤ) - 5 * (n : ℤ) + w < 0) = true ↔ _
    rw [decide_eq_true_eq]
    constructor <;> intro hlt <;> omega
  · intro p
    simp [Pipe.is_window_passed]

/-! ## List helper lemmas shared by the engine proofs -/

theorem getD_eraseIdx_of_lt {α : Type} (l : List α) (i j : ℕ) (d : α)
    (h : j < i) : (l.eraseIdx i).getD j d = l.getD j d := by
  rw [List.getD_eq_getElem?_getD, List.getD_eq_getElem?_getD,
    List.getElem?_eraseIdx_of_lt _ _ _ h]

theorem getD_eraseIdx_of_ge {α : Type} (l : List α) (i j : ℕ) (d : α)
    (h : i ≤ j) : (l.eraseIdx i).getD j d = l.getD (j + 1) d := by
  rw [List.getD_eq_getElem?_getD, List.getD_eq_getElem?_getD,
    List.getElem?_eraseIdx_of_ge _ _ _ h]

theorem getD_set_ne {α : Type} (l : List α) (i j : ℕ) (x : α) (d : α)
    (h : i ≠ j) : (l.set i x).getD j d = l.getD j d := by
  rw [List.getD_eq_getElem?_getD, List.getD_eq_getElem?_getD,
    List.getElem?_set_ne h]

theorem getD_set_self {α : Type} (l : List α) (i : ℕ) (x : α) (d : α)
    (h : i < l.length) : (l.set i x).getD i d = x := by
  rw [List.getD_eq_getElem?_getD, List.getElem?_set_self h]
  rfl

theorem getD_map_of_lt {α β : Type} (f : α → β) (l : List α) (k : ℕ)
    (dB : β) (dA : α) (h : k < l.length) :
    (l.map f).getD k dB = f (l.getD k dA) := by
  rw [List.getD_eq_getElem?_getD, List.getD_eq_getElem?_getD, List.getElem?_map,
    List.getElem?_eq_getElem h]
  rfl

theorem eraseIdx_map {α β : Type} (f : α → β) (l : List α) (i : ℕ) :
    (l.map f).eraseIdx i = (l.eraseIdx i).map f := by
  induction l generalizing i with
  | nil => rfl
  | cons a t ih =>
      cases i with
      | zero => rfl
      | succ m => simp [List.eraseIdx_cons_succ, ih]

theorem eraseIdx_set_self {α : Type} (l : List α) (i : ℕ) (x : α) :
    (l.set i x).eraseIdx i = l.eraseIdx i := by
  induction l generalizing i with
  | nil => rfl
  | cons a t ih =>
      cases i with
      | zero => rfl
      | succ m => simp [List.eraseIdx_cons_succ, ih]

theorem set_getD_self {α : Type} (l : List α) (i : ℕ) (d : α)
    (h : i < l.length) : l.set i (l.getD i d) = l := by
  induction l generalizing i with
  | nil => rfl
  | cons a t ih =>
      cases i with
      | zero => rfl
      | succ m =>
          simp only [List.set_cons_succ, List.getD_cons_succ]
          rw [ih]
          exact Nat.lt_of_succ_lt_succ h

/-! ## The engine (src/NE/Engine/Engine.py)

The three parallel population containers of `Engine` — `birds`, `networks`,
`genomes` — are bundled into `ScanSt` for the per-frame scans; the full
engine state adds the pipe list and the score.  A genome enters the core
only through its mutable `fitness` scalar, so a genome is modelled by that
scalar.  A network is an opaque `Net`, queried through an activation
function `act`; the pixel-mask collision test `Pipe.is_collision` is an
opaque Boolean predicate `collide` of the pipe and bird states. -/

variable {Net : Type}

/-- The three index-parallel population lists of `Engine`. -/
structure ScanSt (Net : Type) where
  birds : List Bird
  networks : List Net
  genomes : List ℚ
deriving DecidableEq

/-- Full engine state for one generation run. -/
structure EngineState (Net : Type) where
  birds : List Bird
  networks : List Net
  genomes : List ℚ
  pipes : List Pipe
  score : ℕ
deriving DecidableEq

/-- The population part of an engine state. -/
def ScanSt.ofEngine (s : EngineState Net) : ScanSt Net :=
  ⟨s.birds, s.networks, s.genomes⟩

/-- Engine.move_pipes line 300: `self.genomes[i].fitness -= FITNESS_DECREASE`
for the colliding bird's index. -/
def collisionPenalty (gs : List ℚ) (i : ℕ) : List ℚ :=
  gs.set i (gs.getD i 0 - FITNESS_DECREASE)

/-- Engine.move_pipes lines 300-303: decrement the colliding agent's fitness,
then pop index `i` from all three parallel lists. -/
def collisionStep (s : ScanSt Net) (i : ℕ) : ScanSt Net :=
  { birds := s.birds.eraseIdx i
    networks := s.networks.eraseIdx i
    genomes := (collisionPenalty s.genomes i).eraseIdx i }

/-- Engine.move_pipes lines 326-328: pop index `i` from all three parallel
lists (out-of-bounds removal carries no fitness penalty). -/
def popTriple (s : ScanSt Net) (i : ℕ) : ScanSt Net :=
  { birds := s.birds.eraseIdx i
    networks := s.networks.eraseIdx i
    genomes := s.genomes.eraseIdx i }

/-- The pipe after one iteration of the inner bird loop of `move_pipes`:
`if not pipe.is_passed and pipe.is_bird_passed(bird)` — `is_bird_passed` is
only called (and hence the latch only written) when the guard's first
conjunct holds. -/
def passPipe (p : Pipe) (b : Bird) : Pipe :=
  if p.isPassed then p else (p.is_bird_passed b).1

/-- The `create_new_pipe` flag after one iteration of the inner bird loop. -/
def passFlag (p : Pipe) (flag : Bool) (b : Bird) : Bool :=
  if p.isPassed then flag else (flag || (p.is_bird_passed b).2)

/-- The inner `for i, bird in enumerate(self.birds)` loop of
`Engine.move_pipes` (lines 298-306) for one pipe.  CPython's list iterator
advances its index after every iteration even when the body popped the
current index, so the recursion always continues at `k + 1`; when a pop
occurred, the element that shifted into slot `k` is therefore skipped.  The
loop body examines `birds[k]`, performs the collision removal, and then runs
the pass check on the same (possibly just popped) bird object.  `fuel` bounds
the number of iterations; called with `fuel = s.birds.length` it is exact,
because the index grows by one per iteration while the list never grows. -/
def birdScanAux (collide : Pipe → Bird → Bool) :
    ℕ → Pipe → Bool → ScanSt Net → ℕ → Pipe × Bool × ScanSt Net
  | 0, p, flag, s, _ => (p, flag, s)
  | fuel + 1, p, flag, s, k =>
      if k < s.birds.length then
        birdScanAux collide fuel
          (passPipe p (s.birds.getD k default))
          (passFlag p flag (s.birds.getD k default))
          (if collide p (s.birds.getD k default) then collisionStep s k else s)
          (k + 1)
      else (p, flag, s)

/-- The outer `for _, pipe in enumerate(self.pipes)` loop of
`Engine.move_pipes` (lines 296-311).  The pipe list itself is not mutated
during this loop, so it is a plain structural recursion; for each pipe the
inner bird scan runs, then `is_window_passed` is sampled (that is the
`pipes_to_remove` membership, returned as the Boolean next to each pipe),
then the pipe moves.  Python removes the flagged pipes by object identity
after the loop, which on distinct objects is exactly dropping the flagged
entries. -/
def pipeLoop (collide : Pipe → Bird → Bool) :
    List Pipe → Bool → ScanSt Net → List (Pipe × Bool) × Bool × ScanSt Net
  | [], flag, s => ([], flag, s)
  | p :: rest, flag, s =>
      let r1 := birdScanAux collide s.birds.length p flag s 0
      let r2 := pipeLoop collide rest r1.2.1 r1.2.2
      ((r1.1.move, r1.1.is_window_passed) :: r2.1, r2.2)

/-- The trailing `for i, bird in enumerate(self.birds)` loop of
`Engine.move_pipes` (lines 324-328): remove birds that hit the border, by
index, with the same skip-on-pop iterator semantics as the collision scan. -/
def oobScanAux (spriteH : ℚ) : ℕ → ScanSt Net → ℕ → ScanSt Net
  | 0, s, _ => s
  | fuel + 1, s, k =>
      if k < s.birds.length then
        oobScanAux spriteH fuel
          (if (s.birds.getD k default).hits_border spriteH then popTriple s k
            else s)
          (k + 1)
      else s

/-- `Engine.move_pipes` (lines 269-328).  Parameters: `collide` is the
pixel-mask collision oracle, `spriteH` the bird sprite height read by
`hits_border`, `w`/`th` the pipe image dimensions and `newH` the random gap
height of the pipe appended when `create_new_pipe` is set.  Order as in the
source: pipe loop, then (if the flag is set) append one new pipe at
`PIPE_POSITION_X`, increment the score and add `FITNESS_INCREASE_PASS` to
every genome still in the list, then drop the pipes collected in
`pipes_to_remove`, then the out-of-bounds bird scan. -/
def movePipes (collide : Pipe → Bird → Bool) (spriteH : ℚ) (w th newH : ℤ)
    (s : EngineState Net) : EngineState Net :=
  let r := pipeLoop collide s.pipes false (ScanSt.ofEngine s)
  let flag := r.2.1
  let sc := r.2.2
  let genomes1 :=
    if flag then sc.genomes.map (· + FITNESS_INCREASE_PASS) else sc.genomes
  let score1 := if flag then s.score + 1 else s.score
  let pipes1 := (r.1.filter (fun q => !q.2)).map Prod.fst ++
    (if flag then [mkPipe PIPE_POSITION_X w th newH] else [])
  let sf := oobScanAux spriteH sc.birds.length ⟨sc.birds, sc.networks, genomes1⟩ 0
  ⟨sf.birds, sf.networks, sf.genomes, pipes1, score1⟩

/-- `current_pipe_index` of `Engine.emulate_birds` (lines 352-360): 1 when
there is a bird, more than one pipe, and the first bird's x position exceeds
the first pipe's x position plus the width of its upper mini pipe
(`mini_pipes[1]`, which has the same width as `mini_pipes[0]`, its vertical
flip); otherwise 0. -/
def currentPipeIndex (s : EngineState Net) : ℕ :=
  if 0 < s.birds.length ∧ 1 < s.pipes.length ∧
      (s.pipes.getD 0 default).posX + (s.pipes.getD 0 default).width <
        (s.birds.getD 0 default).posX
  then 1 else 0

/-- The pipe whose geometry feeds the sensor vector this frame. -/
def targetPipe (s : EngineState Net) : Pipe :=
  s.pipes.getD (currentPipeIndex s) default

/-- The 3-element input tuple passed to `activate` (Engine.emulate_birds
lines 366-374): the bird's y position, the absolute difference to the target
pipe's `position_y[0]` (the lower segment's top y), and the absolute
difference to the target pipe's gap `height`. -/
def sensorVec (p : Pipe) (b : Bird) : List ℚ :=
  [b.posY, |b.posY - (p.posY0 : ℚ)|, |b.posY - (p.height : ℚ)|]

/-- The transformation `Engine.emulate_birds` applies to one bird (lines
362-377): first `bird.move()`, then the network is activated on the sensor
vector built from the moved bird, then `bird.jump()` exactly when the output
exceeds `DECISION_BORDER`. -/
def emulateBirdStep (act : Net → List ℚ → ℚ) (tgt : Pipe) (net : Net)
    (b : Bird) : Bird :=
  let b1 := b.move
  let out := act net (sensorVec tgt b1)
  if DECISION_BORDER < out then b1.jump else b1

/-- The `for i, bird in enumerate(self.birds)` loop of
`Engine.emulate_birds`: per index, move the bird, add the per-frame survival
bonus to `genomes[i]` (this sits between the move and the activation in the
source but touches disjoint state), activate `networks[i]` on the sensor
vector of the moved bird, and jump on a positive decision.  The loop pops
nothing, so the index walks every bird. -/
def emuLoopAux [Inhabited Net] (act : Net → List ℚ → ℚ) (tgt : Pipe) :
    ℕ → ScanSt Net → ℕ → ScanSt Net
  | 0, s, _ => s
  | fuel + 1, s, k =>
      if k < s.birds.length then
        emuLoopAux act tgt fuel
          ⟨s.birds.set k
              (emulateBirdStep act tgt (s.networks.getD k default)
                (s.birds.getD k default)),
            s.networks,
            s.genomes.set k (s.genomes.getD k 0 + FITNESS_INCREASE_LIVE)⟩
          (k + 1)
      else s

/-- `Engine.emulate_birds` (lines 330-377): fix the target pipe from the
pre-loop state, then run the per-bird loop over the whole population. -/
def emulateBirds [Inhabited Net] (act : Net → List ℚ → ℚ)
    (s : EngineState Net) : EngineState Net :=
  let r := emuLoopAux act (targetPipe s) s.birds.length (ScanSt.ofEngine s) 0
  { s with birds := r.birds, networks := r.networks, genomes := r.genomes }

/-- One iteration of the `while` loop of `Engine.run_ne` (lines 231-243) as
it acts on the simulation state: `self.base.move()` and `draw_window` touch
neither the population lists nor the pipes nor the score, so the per-frame
state change is `emulate_birds` followed by `move_pipes`. -/
def frameStep [Inhabited Net] (act : Net → List ℚ → ℚ)
    (collide : Pipe → Bird → Bool) (spriteH : ℚ) (w th newH : ℤ)
    (s : EngineState Net) : EngineState Net :=
  movePipes collide spriteH w th newH (emulateBirds act s)

/-- Initialization of one generation in `Engine.run_ne` (lines 210-226): per
genome, reset its fitness to 0, create its network, and append network, a
fresh bird at the spawn position, and the genome to the three lists in
lock-step; then one initial pipe.  `networks` is the list of created
networks, in genome order; `h0` is the initial pipe's random gap height. -/
def initPop (networks : List Net) (w th h0 : ℤ) : EngineState Net :=
  { birds := networks.map (fun _ => mkBird BIRD_POSITION_X BIRD_POSITION_Y)
    networks := networks
    genomes := networks.map (fun _ => 0)
    pipes := [mkPipe PIPE_POSITION_X w th h0]
    score := 0 }

/-! ## Claim C1: the three parallel lists stay aligned

"Bird i, network i and genome i belong to the same agent" is formalised by
exhibiting a single list of composite agent records of which the three
engine lists are, at every observable point, the three projections: removal
always erases the same index from all three lists, so the projection picture
is preserved, and equal lengths follow. -/

/-- A composite agent record: one bird with its controlling network and the
fitness of its genome. -/
structure Agent (Net : Type) where
  bird : Bird
  net : Net
  fitness : ℚ

instance [Inhabited Net] : Inhabited (Agent Net) := ⟨⟨default, default, 0⟩⟩

/-- The three parallel lists are the three projections of the single agent
list `ag`. -/
def ScanSt.Represents (ag : List (Agent Net)) (s : ScanSt Net) : Prop :=
  s.birds = ag.map Agent.bird ∧ s.networks = ag.map Agent.net ∧
    s.genomes = ag.map Agent.fitness

/-- Projection picture for a full engine state. -/
def EngineState.Represents (ag : List (Agent Net)) (s : EngineState Net) :
    Prop :=
  ScanSt.Represents ag (ScanSt.ofEngine s)

theorem represents_lengths {ag : List (Agent Net)} {s : ScanSt Net}
    (h : ScanSt.Represents ag s) :
    s.birds.length = s.networks.length ∧
      s.networks.length = s.genomes.length := by
  obtain ⟨hb, hn, hg⟩ := h
  rw [hb, hn, hg]
  simp

theorem popTriple_represents {ag : List (Agent Net)} {s : ScanSt Net}
    (h : ScanSt.Represents ag s) (i : ℕ) :
    ScanSt.Represents (ag.eraseIdx i) (popTriple s i) := by
  obtain ⟨hb, hn, hg⟩ := h
  exact ⟨by rw [popTriple, hb, eraseIdx_map],
    by rw [popTriple, hn, eraseIdx_map],
    by rw [popTriple, hg, eraseIdx_map]⟩

theorem collisionStep_represents {ag : List (Agent Net)} {s : ScanSt Net}
    (h : ScanSt.Represents ag s) (i : ℕ) :
    ScanSt.Represents (ag.eraseIdx i) (collisionStep s i) := by
  obtain ⟨hb, hn, hg⟩ := h
  refine ⟨by rw [collisionStep, hb, eraseIdx_map],
    by rw [collisionStep, hn, eraseIdx_map], ?_⟩
  rw [collisionStep, collisionPenalty, eraseIdx_set_self, hg, eraseIdx_map]

theorem birdScanAux_represents (collide : Pipe → Bird → Bool) (fuel : ℕ)
    (p : Pipe) (flag : Bool) (s : ScanSt Net) (k : ℕ)
    {ag : List (Agent Net)} (h : ScanSt.Represents ag s) :
    ∃ ag', ScanSt.Represents ag' (birdScanAux collide fuel p flag s k).2.2 := by
  induction fuel generalizing p flag s k ag with
  | zero => exact ⟨ag, h⟩
  | succ n ih =>
      rw [birdScanAux]
      by_cases hk : k < s.birds.length
      · rw [if_pos hk]
        by_cases hc : collide p (s.birds.getD k default)
        · rw [if_pos hc]
          exact ih _ _ _ _ (collisionStep_represents h k)
        · rw [if_neg hc]
          exact ih _ _ _ _ h
      · rw [if_neg hk]
        exact ⟨ag, h⟩

theorem pipeLoop_represents (collide : Pipe → Bird → Bool) (ps : List Pipe)
    (flag : Bool) (s : ScanSt Net) {ag : List (Agent Net)}
    (h : ScanSt.Represents ag s) :
    ∃ ag', ScanSt.Represents ag' (pipeLoop collide ps flag s).2.2 := by
  induction ps generalizing flag s ag with
  | nil => exact ⟨ag, h⟩
  | cons p rest ih =>
      rw [pipeLoop]
      obtain ⟨ag1, h1⟩ :=
        birdScanAux_represents collide s.birds.length p flag s 0 h
      exact ih _ _ h1

theorem oobScanAux_represents (spriteH : ℚ) (fuel : ℕ) (s : ScanSt Net)
    (k : ℕ) {ag : List (Agent Net)} (h : ScanSt.Represents ag s) :
    ∃ ag', ScanSt.Represents ag' (oobScanAux spriteH fuel s k) := by
  induction fuel generalizing s k ag with
  | zero => exact ⟨ag, h⟩
  | succ n ih =>
      rw [oobScanAux]
      by_cases hk : k < s.birds.length
      · rw [if_pos hk]
        by_cases hb : (s.birds.getD k default).hits_border spriteH
        · rw [if_pos hb]
          exact ih _ _ (popTriple_represents h k)
        · rw [if_neg hb]
          exact ih _ _ h
      · rw [if_neg hk]
        exact ⟨ag, h⟩

theorem bonus_represents {ag : List (Agent Net)} {s : ScanSt Net}
    (h : ScanSt.Represents ag s) :
    ScanSt.Represents
      (ag.map (fun a => { a with fitness := a.fitness + FITNESS_INCREASE_PASS }))
      ⟨s.birds, s.networks, s.genomes.map (· + FITNESS_INCREASE_PASS)⟩ := by
  obtain ⟨hb, hn, hg⟩ := h
  refine ⟨?_, ?_, ?_⟩
  · show s.birds = _
    rw [hb, List.map_map]
    exact List.map_congr_left (fun a _ => rfl)
  · show s.networks = _
    rw [hn, List.map_map]
    exact List.map_congr_left (fun a _ => rfl)
  · show s.genomes.map (· + FITNESS_INCREASE_PASS) = _
    rw [hg, List.map_map, List.map_map]
    exact List.map_congr_left (fun a _ => rfl)

theorem movePipes_represents (collide : Pipe → Bird → Bool) (spriteH : ℚ)
    (w th newH : ℤ) (s : EngineState Net) {ag : List (Agent Net)}
    (h : EngineState.Represents ag s) :
    ∃ ag', EngineState.Represents ag'
      (movePipes collide spriteH w th newH s) := by
  obtain ⟨ag1, h1⟩ := pipeLoop_represents collide s.pipes false _ h
  rw [movePipes]
  by_cases hf : (pipeLoop collide s.pipes false (ScanSt.ofEngine s)).2.1
  · simp only [hf, if_true]
    obtain ⟨ag2, h2⟩ := oobScanAux_represents spriteH
      (pipeLoop collide s.pipes false (ScanSt.ofEngine s)).2.2.birds.length
      _ 0 (bonus_represents h1)
    exact ⟨ag2, h2⟩
  · simp only [hf, if_false]
    obtain ⟨ag2, h2⟩ := oobScanAux_represents spriteH
      (pipeLoop collide s.pipes false (ScanSt.ofEngine s)).2.2.birds.length
      (pipeLoop collide s.pipes false (ScanSt.ofEngine s)).2.2 0 h1
    exact ⟨ag2, h2⟩

theorem emuLoopAux_represents [Inhabited Net] (act : Net → List ℚ → ℚ)
    (tgt : Pipe) (fuel : ℕ) (s : ScanSt Net) (k : ℕ)
    {ag : List (Agent Net)} (h : ScanSt.Represents ag s) :
    ∃ ag', ScanSt.Represents ag' (emuLoopAux act tgt fuel s k) := by
  induction fuel generalizing s k ag with
  | zero => exact ⟨ag, h⟩
  | succ n ih =>
      rw [emuLoopAux]
      by_cases hk : k < s.birds.length
      · rw [if_pos hk]
        obtain ⟨hb, hn, hg⟩ := h
        have hkag : k < ag.length := by
          have h2 := hk
          rw [hb] at h2
          simpa using h2
        have hknet : k < s.networks.length := by
          rw [hn]
          simpa using hkag
        have hnet : (ag.getD k default).net = s.networks.getD k default := by
          rw [hn, getD_map_of_lt Agent.net ag k default default hkag]
        have hfit : (ag.getD k default).fitness = s.genomes.getD k 0 := by
          rw [hg, getD_map_of_lt Agent.fitness ag k 0 default hkag]
        refine @ih _ _ (ag.set k
          { bird := emulateBirdStep act tgt (s.networks.getD k default)
              (s.birds.getD k default)
            net := (ag.getD k default).net
            fitness := (ag.getD k default).fitness + FITNESS_INCREASE_LIVE })
          ⟨?_, ?_, ?_⟩
        · show s.birds.set k _ = _
          rw [List.map_set]
          dsimp only
          rw [← hb]
        · show s.networks = _
          rw [List.map_set]
          dsimp only
          rw [hnet, ← hn]
          exact (set_getD_self s.networks k default hknet).symm
        · show s.genomes.set k _ = _
          rw [List.map_set]
          dsimp only
          rw [hfit, ← hg]
      · rw [if_neg hk]
        exact ⟨ag, h⟩

theorem emulateBirds_represents [Inhabited Net] (act : Net → List ℚ → ℚ)
    (s : EngineState Net) {ag : List (Agent Net)}
    (h : EngineState.Represents ag s) :
    ∃ ag', EngineState.Represents ag' (emulateBirds act s) := by
  obtain ⟨ag', h'⟩ :=
    emuLoopAux_represents act (targetPipe s) s.birds.length (ScanSt.ofEngine s)
      0 h
  exact ⟨ag', h'⟩

/-- Claim C1.  At every observable point of a run the three parallel lists
are the projections of a single agent list — so they have equal lengths, and
bird i, network i and genome i are the components of the same agent record.
The conjuncts: (1) after initialization the projection picture holds; (2) it
is preserved by every individual agent removal, both collision removal (the
lists become the projections of the agent list with exactly index i erased)
and out-of-bounds removal; (3) it is preserved by a whole per-frame step
(`emulate_birds` followed by `move_pipes`); (4) wherever it holds the three
lists have equal lengths. -/
theorem C1_parallel_lists_aligned [Inhabited Net] (act : Net → List ℚ → ℚ)
    (collide : Pipe → Bird → Bool) (spriteH : ℚ) (w th newH : ℤ) :
    (∀ (ns : List Net) (w1 th1 h0 : ℤ),
      EngineState.Represents
        (ns.map (fun n =>
          { bird := mkBird BIRD_POSITION_X BIRD_POSITION_Y, net := n
            fitness := 0 }))
        (initPop ns w1 th1 h0)) ∧
    (∀ (s : ScanSt Net) (ag : List (Agent Net)) (i : ℕ),
      ScanSt.Represents ag s →
        ScanSt.Represents (ag.eraseIdx i) (collisionStep s i) ∧
        ScanSt.Represents (ag.eraseIdx i) (popTriple s i)) ∧
    (∀ (s : EngineState Net) (ag : List (Agent Net)),
      EngineState.Represents ag s →
        ∃ ag', EngineState.Represents ag'
          (frameStep act collide spriteH w th newH s)) ∧
    (∀ (s : ScanSt Net) (ag : List (Agent Net)), ScanSt.Represents ag s →
      s.birds.length = s.networks.length ∧
        s.networks.length = s.genomes.length) := by
  refine ⟨?_, ?_, ?_, ?_⟩
  · intro ns w1 th1 h0
    refine ⟨?_, ?_, ?_⟩
    · show ns.map (fun _ => mkBird BIRD_POSITION_X BIRD_POSITION_Y) = _
      rw [List.map_map]
      exact List.map_congr_left (fun a _ => rfl)
    · show ns = _
      rw [List.map_map]
      exact (List.map_id ns).symm
    · show ns.map (fun _ => (0 : ℚ)) = _
      rw [List.map_map]
      exact List.map_congr_left (fun a _ => rfl)
  · intro s ag i h
    exact ⟨collisionStep_represents h i, popTriple_represents h i⟩
  · intro s ag h
    obtain ⟨ag1, h1⟩ := emulateBirds_represents act s h
    exact movePipes_represents collide spriteH w th newH _ h1
  · intro s ag h
    exact represents_lengths h

/-- Witness for C1: a concrete one-agent engine state (network modelled by
the number 7) runs one full frame with a never-colliding oracle, and the
projection picture is preserved. -/
theorem C1_witness :
    ∃ ag', EngineState.Represents ag'
      (frameStep ((fun _ _ => 0) : ℕ → List ℚ → ℚ) (fun _ _ => false)
        60 100 640 300 (initPop [7] 100 640 200)) := by
  refine (C1_parallel_lists_aligned ((fun _ _ => 0) : ℕ → List ℚ → ℚ)
    (fun _ _ => false) 60 100 640 300).2.2.1 (initPop [7] 100 640 200)
    [{ bird := mkBird BIRD_POSITION_X BIRD_POSITION_Y, net := 7, fitness := 0 }]
    ⟨rfl, rfl, rfl⟩

/-! ## Claim C5: effect of one detected collision -/

/-- Claim C5: the collision branch of `move_pipes` (lines 298-303) first
decreases the colliding agent's fitness handle by exactly `FITNESS_DECREASE`
= 1 (conjuncts about `collisionPenalty`: entry i drops by 1, every other
entry is untouched), then pops exactly index i from all three parallel lists
(the resulting lists are `eraseIdx i` of the originals — in particular every
surviving genome value is unchanged, because the decremented entry is the
removed one), and the survivors stay index-aligned: entries below i keep
their index, entries above i shift down by one, in lock-step across the
three lists. -/
theorem C5_collision_removal [Inhabited Net] (s : ScanSt Net) (i : ℕ)
    (hi : i < s.birds.length) (hg : s.genomes.length = s.birds.length) :
    ((collisionStep s i).birds = s.birds.eraseIdx i ∧
      (collisionStep s i).networks = s.networks.eraseIdx i ∧
      (collisionStep s i).genomes = s.genomes.eraseIdx i) ∧
    ((collisionPenalty s.genomes i).getD i 0 = s.genomes.getD i 0 - 1 ∧
      ∀ j, j ≠ i →
        (collisionPenalty s.genomes i).getD j 0 = s.genomes.getD j 0) ∧
    (collisionStep s i).birds.length + 1 = s.birds.length ∧
    (∀ j, j < i →
      (collisionStep s i).birds.getD j default = s.birds.getD j default ∧
      (collisionStep s i).networks.getD j default = s.networks.getD j default ∧
      (collisionStep s i).genomes.getD j 0 = s.genomes.getD j 0) ∧
    (∀ j, i ≤ j →
      (collisionStep s i).birds.getD j default = s.birds.getD (j + 1) default ∧
      (collisionStep s i).networks.getD j default =
        s.networks.getD (j + 1) default ∧
      (collisionStep s i).genomes.getD j 0 = s.genomes.getD (j + 1) 0) := by
  have hgen : (collisionStep s i).genomes = s.genomes.eraseIdx i := by
    rw [collisionStep, collisionPenalty, eraseIdx_set_self]
  have higen : i < s.genomes.length := by rw [hg]; exact hi
  refine ⟨⟨rfl, rfl, hgen⟩, ⟨?_, ?_⟩, ?_, ?_, ?_⟩
  · rw [collisionPenalty,
      getD_set_self s.genomes i (s.genomes.getD i 0 - FITNESS_DECREASE) 0 higen]
    rw [FITNESS_DECREASE]
  · intro j hj
    rw [collisionPenalty, getD_set_ne s.genomes i j _ 0 (fun he => hj he.symm)]
  · show (s.birds.eraseIdx i).length + 1 = s.birds.length
    rw [List.length_eraseIdx_of_lt hi]
    omega
  · intro j hj
    exact ⟨getD_eraseIdx_of_lt s.birds i j default hj,
      getD_eraseIdx_of_lt s.networks i j default hj, by
        rw [hgen]; exact getD_eraseIdx_of_lt s.genomes i j 0 hj⟩
  · intro j hj
    exact ⟨getD_eraseIdx_of_ge s.birds i j default hj,
      getD_eraseIdx_of_ge s.networks i j default hj, by
        rw [hgen]; exact getD_eraseIdx_of_ge s.genomes i j 0 hj⟩

/-- Witness for C5: removing index 0 from a concrete two-agent population
(networks modelled by numbers) decrements exactly the removed genome and
leaves the survivor aligned. -/
theorem C5_witness :
    (collisionStep (⟨[mkBird 220 350, mkBird 220 360], [4, 5],
        [2, 3]⟩ : ScanSt ℕ) 0).genomes = [3] ∧
    (collisionPenalty [2, 3] 0).getD 0 0 = 2 - 1 := by
  have h := C5_collision_removal
    (⟨[mkBird 220 350, mkBird 220 360], [4, 5], [2, 3]⟩ : ScanSt ℕ) 0
    (by decide) (by decide)
  exact ⟨by rw [h.1.2.2]; rfl, h.2.1.1⟩

/-! ## Claim C2: the scans skip the agent after a removal -/

/-- Claim C2 is refuted by the code: the collision scan of `move_pipes` pops
`birds[i]` while `enumerate` keeps advancing, so the bird that shifts into
slot i is never examined in that scan.  Here both birds of a two-bird
population satisfy the collision predicate (it is constantly true); the scan
examines bird 0, removes it, and then terminates — the second bird survives
the scan without ever being examined, although the claim requires every
agent that was present at scan start and not previously removed to be
examined (an examined always-colliding bird would have been removed).  This
is the latent iterator bug the spec itself flags in section 4.4 and
section 9. -/
theorem C2_scan_skips_after_removal :
    (birdScanAux (fun _ _ => true) 2 (mkPipe 650 100 640 200) false
        (⟨[mkBird 220 350, mkBird 220 360], [4, 5], [2, 3]⟩ : ScanSt ℕ)
        0).2.2 =
      ⟨[mkBird 220 360], [5], [3]⟩ := by
  decide

/-! ## Claim C3: order of physics advance and decision within a frame -/

theorem emuLoopAux_birds_length [Inhabited Net] (act : Net → List ℚ → ℚ)
    (tgt : Pipe) (fuel : ℕ) (s : ScanSt Net) (k : ℕ) :
    (emuLoopAux act tgt fuel s k).birds.length = s.birds.length := by
  induction fuel generalizing s k with
  | zero => rfl
  | succ n ih =>
      rw [emuLoopAux]
      by_cases hk : k < s.birds.length
      · rw [if_pos hk, ih]
        simp
      · rw [if_neg hk]

theorem emuLoopAux_birds_getD_lt [Inhabited Net] (act : Net → List ℚ → ℚ)
    (tgt : Pipe) (fuel : ℕ) (s : ScanSt Net) (j k : ℕ) (hkj : k < j) :
    (emuLoopAux act tgt fuel s j).birds.getD k default =
      s.birds.getD k default := by
  induction fuel generalizing s j with
  | zero => rfl
  | succ n ih =>
      rw [emuLoopAux]
      by_cases hj : j < s.birds.length
      · rw [if_pos hj, ih _ _ (Nat.lt_succ_of_lt hkj)]
        exact getD_set_ne s.birds j k _ default (Nat.ne_of_gt hkj)
      · rw [if_neg hj]

theorem emuLoopAux_birds_getD [Inhabited Net] (act : Net → List ℚ → ℚ)
    (tgt : Pipe) (fuel : ℕ) (s : ScanSt Net) (j k : ℕ)
    (hfuel : s.birds.length ≤ j + fuel) (hjk : j ≤ k)
    (hk : k < s.birds.length) :
    (emuLoopAux act tgt fuel s j).birds.getD k default =
      emulateBirdStep act tgt (s.networks.getD k default)
        (s.birds.getD k default) := by
  induction fuel generalizing s j with
  | zero => omega
  | succ n ih =>
      rw [emuLoopAux]
      have hj : j < s.birds.length := Nat.lt_of_le_of_lt hjk hk
      rw [if_pos hj]
      rcases Nat.eq_or_lt_of_le hjk with heq | hlt
      · subst heq
        rw [emuLoopAux_birds_getD_lt act tgt n _ (j + 1) j (Nat.lt_succ_self j)]
        exact getD_set_self s.birds j _ default hj
      · rw [ih]
        · congr 1
          exact getD_set_ne s.birds j k _ default (Nat.ne_of_lt hlt)
        · dsimp only
          rw [List.length_set]
          omega
        · exact hlt
        · dsimp only
          rw [List.length_set]
          exact hk

/-- Comparison step modelled from the claim's words (not from the source):
the decision is computed from the pre-move state, the impulse applied, and
only then the physics advanced. -/
def decideThenMoveStep (act : Net → List ℚ → ℚ) (tgt : Pipe) (net : Net)
    (b : Bird) : Bird :=
  let out := act net (sensorVec tgt b)
  let b1 := if DECISION_BORDER < out then b.jump else b
  b1.move

/-- Counterexample to claim C3 as stated: with a network that fires exactly
when the sensed y position exceeds 350, a bird at y = 350 jumps under the
code's order (move first — the moved bird is at y = 351.5, so the sensed
value exceeds the threshold) but not under the claim's order (decide first —
the sensed value is 350, no impulse), so the two orders produce different
states: the code does not decide before advancing the physics. -/
theorem C3_counterexample :
    emulateBirdStep ((fun _ v => if 350 < v.headI then 1 else 0) :
          Unit → List ℚ → ℚ)
        (mkPipe 650 100 640 200) () (mkBird 220 350) ≠
      decideThenMoveStep ((fun _ v => if 350 < v.headI then 1 else 0) :
          Unit → List ℚ → ℚ)
        (mkPipe 650 100 640 200) () (mkBird 220 350) := by
  have h1 : (emulateBirdStep
      ((fun _ v => if 350 < v.headI then 1 else 0) : Unit → List ℚ → ℚ)
      (mkPipe 650 100 640 200) () (mkBird 220 350)).velocity = -10 := by
    norm_num [emulateBirdStep, Bird.move, Bird.jump, mkBird, sensorVec, mkPipe,
      appliedDistance, rawDistance, DECISION_BORDER, BIRD_JUMP_VELOCITY,
      BIRD_TERMINAL_VELOCITY, List.headI]
  have h2 : (decideThenMoveStep
      ((fun _ v => if 350 < v.headI then 1 else 0) : Unit → List ℚ → ℚ)
      (mkPipe 650 100 640 200) () (mkBird 220 350)).velocity = 0 := by
    norm_num [decideThenMoveStep, Bird.move, Bird.jump, mkBird, sensorVec,
      mkPipe, appliedDistance, rawDistance, DECISION_BORDER,
      BIRD_JUMP_VELOCITY, BIRD_TERMINAL_VELOCITY, List.headI]
  intro h
  rw [h, h2] at h1
  norm_num at h1

/-- Claim C3, amended.  Within `emulate_birds`, for each surviving agent the
order is: advance the physics (`bird.move()`) first, then build the sensor
vector from the already-moved bird, then invoke the decision function, and
apply the impulse (if the output exceeds the threshold) last — the position
update for the frame happens BEFORE the decision, not after it as the claim
stated.  Conjuncts: (1) the bird at any index k after the `emulate_birds`
loop is exactly `emulateBirdStep` of the bird that was at k; (2)
`emulateBirdStep` is the moved bird, impulsed exactly when the decision
function's output on the moved bird's sensor vector exceeds the threshold;
(3) consequently the frame's position update is decided by `move` alone —
the decision only affects velocity state for later frames. -/
theorem C3_move_precedes_decision [Inhabited Net] (act : Net → List ℚ → ℚ)
    (s : EngineState Net) (k : ℕ) (hk : k < s.birds.length) :
    ((emulateBirds act s).birds.getD k default =
      emulateBirdStep act (targetPipe s) (s.networks.getD k default)
        (s.birds.getD k default)) ∧
    (∀ (tgt : Pipe) (net : Net) (b : Bird),
      emulateBirdStep act tgt net b =
        if DECISION_BORDER < act net (sensorVec tgt b.move) then b.move.jump
        else b.move) ∧
    (∀ (tgt : Pipe) (net : Net) (b : Bird),
      (emulateBirdStep act tgt net b).posY = b.move.posY) := by
  refine ⟨?_, fun tgt net b => rfl, ?_⟩
  · exact emuLoopAux_birds_getD act (targetPipe s) s.birds.length
      (ScanSt.ofEngine s) 0 k
      (by show s.birds.length ≤ 0 + s.birds.length; omega) (Nat.zero_le k) hk
  · intro tgt net b
    rw [emulateBirdStep]
    by_cases ho : DECISION_BORDER < act net (sensorVec tgt b.move)
    · simp only [ho, if_true]
      rfl
    · simp only [ho, if_false]

/-- Witness for C3: in a concrete one-bird engine state the bird after
`emulate_birds` equals the move-then-decide step of the original bird. -/
theorem C3_witness :
    (emulateBirds ((fun _ _ => 0) : ℕ → List ℚ → ℚ)
        (initPop [7] 100 640 200)).birds.getD 0 default =
      emulateBirdStep ((fun _ _ => 0) : ℕ → List ℚ → ℚ)
        (targetPipe (initPop ([7] : List ℕ) 100 640 200))
        ((initPop ([7] : List ℕ) 100 640 200).networks.getD 0 default)
        ((initPop ([7] : List ℕ) 100 640 200).birds.getD 0 default) :=
  (C3_move_precedes_decision ((fun _ _ => 0) : ℕ → List ℚ → ℚ)
    (initPop [7] 100 640 200) 0 (by decide)).1

/-! ## Claim C7: the sensor vector and the target-obstacle switch -/

/-- Claim C7: for each surviving agent the 3-element vector handed to the
decision function is `[y, |y − targetPipe.position_y[0]|, |y −
targetPipe.height|]` — the bird's y position, the absolute offset to the
target pipe's lower-segment top y, and the absolute offset to its gap
height — where y is the agent's (post-move) vertical position, and the
target pipe is the first pipe, switching to the second exactly when there
are at least two pipes and the lead bird's x position exceeds the first
pipe's x position plus the width of its upper mini pipe (which equals the
shared segment width, the upper segment being a vertical flip of the
lower).  Conjunct (2) records the constructor facts `position_y[0] =
height + PIPE_GAP` and that `height` is the stored gap height. -/
theorem C7_sensor_vector [Inhabited Net] (act : Net → List ℚ → ℚ)
    (s : EngineState Net) :
    (∀ (tgt : Pipe) (net : Net) (b : Bird),
      emulateBirdStep act tgt net b =
        if DECISION_BORDER <
            act net [b.move.posY, |b.move.posY - (tgt.posY0 : ℚ)|,
              |b.move.posY - (tgt.height : ℚ)|]
        then b.move.jump else b.move) ∧
    (∀ x w th h : ℤ, (mkPipe x w th h).posY0 = h + PIPE_GAP ∧
      (mkPipe x w th h).height = h) ∧
    (targetPipe s = s.pipes.getD (currentPipeIndex s) default) ∧
    (currentPipeIndex s = 1 ↔ 0 < s.birds.length ∧ 1 < s.pipes.length ∧
      (s.pipes.getD 0 default).posX + (s.pipes.getD 0 default).width <
        (s.birds.getD 0 default).posX) ∧
    (currentPipeIndex s = 0 ∨ currentPipeIndex s = 1) := by
  refine ⟨fun tgt net b => rfl, fun x w th h => ⟨rfl, rfl⟩, rfl, ?_, ?_⟩
  · rw [currentPipeIndex]
    by_cases hc : 0 < s.birds.length ∧ 1 < s.pipes.length ∧
        (s.pipes.getD 0 default).posX + (s.pipes.getD 0 default).width <
          (s.birds.getD 0 default).posX
    · rw [if_pos hc]
      simpa using hc
    · rw [if_neg hc]
      simpa using hc
  · rw [currentPipeIndex]
    by_cases hc : 0 < s.birds.length ∧ 1 < s.pipes.length ∧
        (s.pipes.getD 0 default).posX + (s.pipes.getD 0 default).width <
          (s.birds.getD 0 default).posX
    · rw [if_pos hc]
      exact Or.inr rfl
    · rw [if_neg hc]
      exact Or.inl rfl

/-! ## Claim C4: effects of a first pass being triggered -/

theorem birdScanAux_flag_mono (collide : Pipe → Bird → Bool) (fuel : ℕ)
    (p : Pipe) (s : ScanSt Net) (k : ℕ) :
    (birdScanAux collide fuel p true s k).2.1 = true := by
  induction fuel generalizing p s k with
  | zero => rfl
  | succ n ih =>
      rw [birdScanAux]
      by_cases hk : k < s.birds.length
      · rw [if_pos hk]
        have hp : passFlag p true (s.birds.getD k default) = true := by
          rw [passFlag]
          by_cases hip : p.isPassed
          · rw [if_pos hip]
          · rw [if_neg hip]
            simp
        rw [hp]
        exact ih _ _ _
      · rw [if_neg hk]

theorem pipeLoop_flag_mono (collide : Pipe → Bird → Bool) (ps : List Pipe)
    (s : ScanSt Net) : (pipeLoop collide ps true s).2.1 = true := by
  induction ps generalizing s with
  | nil => rfl
  | cons p rest ih =>
      rw [pipeLoop]
      dsimp only
      rw [birdScanAux_flag_mono]
      exact ih _

/-- If the bird examined first by the scan of a not-yet-passed pipe does not
collide and the pipe's x position is behind that bird's x position, the
`create_new_pipe` flag comes out true (first iteration sets it, and it is
monotone from then on). -/
theorem birdScanAux_flag_of_first_pass (collide : Pipe → Bird → Bool)
    (p : Pipe) (flag : Bool) (s : ScanSt Net)
    (hb : 0 < s.birds.length) (hp : p.isPassed = false)
    (hx : p.posX < (s.birds.getD 0 default).posX) :
    (birdScanAux collide s.birds.length p flag s 0).2.1 = true := by
  obtain ⟨fuel, hfuel⟩ : ∃ fuel, s.birds.length = fuel + 1 :=
    ⟨s.birds.length - 1, by omega⟩
  rw [hfuel, birdScanAux, if_pos (by omega)]
  have hflag : passFlag p flag (s.birds.getD 0 default) = true := by
    rw [passFlag, if_neg (by rw [hp]; exact Bool.false_ne_true),
      Pipe.is_bird_passed]
    dsimp only
    rw [if_pos hx]
    simp
  rw [hflag]
  exact birdScanAux_flag_mono collide fuel _ _ 1

/-- Claim C4: whenever the per-frame pipe scan raises the `create_new_pipe`
flag — which happens exactly when some examined agent triggers a first pass
of a not-yet-passed pipe, in particular whenever a surviving agent does —
then in that same frame `move_pipes` (1) appends exactly one new pipe, at
the fixed spawn position `PIPE_POSITION_X` = 650 (the final pipe list is the
kept pipes followed by exactly the one new pipe, so its length is the kept
count plus one), (2) increments the score by exactly 1, and (3) adds exactly
`FITNESS_INCREASE_PASS` = 5 to the fitness handle of every agent still in
the population at that point (the genome list as it stands after the
collision scan, before the out-of-bounds scan, which is what the final
out-of-bounds scan then consumes).  Conjunct (4) is the antecedent link: if
the first examined bird of a not-yet-passed pipe at the head of the pipe
list survives its collision check and has passed that pipe's x position, the
flag is raised. -/
theorem C4_pass_effects [Inhabited Net] (collide : Pipe → Bird → Bool)
    (spriteH : ℚ) (w th newH : ℤ) (s : EngineState Net)
    (hflag : (pipeLoop collide s.pipes false (ScanSt.ofEngine s)).2.1 = true) :
    ((movePipes collide spriteH w th newH s).score = s.score + 1) ∧
    ((movePipes collide spriteH w th newH s).pipes =
      (((pipeLoop collide s.pipes false (ScanSt.ofEngine s)).1.filter
          (fun q => !q.2)).map Prod.fst) ++ [mkPipe PIPE_POSITION_X w th newH] ∧
      (movePipes collide spriteH w th newH s).pipes.length =
        (((pipeLoop collide s.pipes false (ScanSt.ofEngine s)).1.filter
          (fun q => !q.2)).map Prod.fst).length + 1 ∧
      (mkPipe PIPE_POSITION_X w th newH).posX = 650) ∧
    ((movePipes collide spriteH w th newH s).genomes =
      (oobScanAux spriteH
        (pipeLoop collide s.pipes false (ScanSt.ofEngine s)).2.2.birds.length
        ⟨(pipeLoop collide s.pipes false (ScanSt.ofEngine s)).2.2.birds,
          (pipeLoop collide s.pipes false (ScanSt.ofEngine s)).2.2.networks,
          (pipeLoop collide s.pipes false (ScanSt.ofEngine s)).2.2.genomes.map
            (· + FITNESS_INCREASE_PASS)⟩ 0).genomes ∧
      ∀ j, j < (pipeLoop collide s.pipes false
          (ScanSt.ofEngine s)).2.2.genomes.length →
        ((pipeLoop collide s.pipes false (ScanSt.ofEngine s)).2.2.genomes.map
            (· + FITNESS_INCREASE_PASS)).getD j 0 =
          (pipeLoop collide s.pipes false
            (ScanSt.ofEngine s)).2.2.genomes.getD j 0 + 5) ∧
    (∀ (p0 : Pipe) (rest : List Pipe),
      s.pipes = p0 :: rest → p0.isPassed = false →
      0 < s.birds.length →
      p0.posX < (s.birds.getD 0 default).posX →
      (pipeLoop collide s.pipes false (ScanSt.ofEngine s)).2.1 = true) := by
  refine ⟨?_, ⟨?_, ?_, rfl⟩, ⟨?_, ?_⟩, ?_⟩
  · rw [movePipes]
    dsimp only
    rw [hflag, if_pos rfl]
  · rw [movePipes]
    dsimp only
    rw [hflag, if_pos rfl]
  · rw [movePipes]
    dsimp only
    rw [hflag, if_pos rfl]
    simp
  · rw [movePipes]
    dsimp only
    rw [hflag, if_pos rfl]
  · intro j hj
    rw [getD_map_of_lt (· + FITNESS_INCREASE_PASS) _ j 0 0 hj,
      FITNESS_INCREASE_PASS]
  · intro p0 rest hps hp0 hb hx
    rw [hps, pipeLoop]
    dsimp only
    rw [birdScanAux_flag_of_first_pass collide p0 false _ hb hp0 hx]
    exact pipeLoop_flag_mono collide rest _

/-- Witness for C4: a concrete one-bird state whose single pipe sits at
x = 100, behind the bird at x = 220 and not yet passed; with a
never-colliding oracle the flag is raised and the score increments. -/
theorem C4_witness :
    (movePipes (fun _ _ => false) 60 100 640 300
        (⟨[mkBird 220 350], [7], [2], [mkPipe 100 100 640 200], 0⟩ :
          EngineState ℕ)).score =
      (0 : ℕ) + 1 := by
  exact (C4_pass_effects (fun _ _ => false) 60 100 640 300
    (⟨[mkBird 220 350], [7], [2], [mkPipe 100 100 640 200], 0⟩ :
      EngineState ℕ)
    (by decide)).1

end NE
